import Mathlib

/-!
Verification of the REST API in this repository (users/courses with
Basic-Authentication-gated writes). The definitions below are a shallow
embedding of `src/app.js`, `src/db/models/user.js` and
`src/db/models/course.js` (the routes file): records for the two tables,
explicit store passing for the persistence layer, and one Lean function
per Express route composing the same middleware chain as the source.
-/

/-- A JSON value, as produced by `res.json(...)` in the Express handlers. -/
inductive Json where
  | str : String → Json
  | num : Int → Json
  | bool : Bool → Json
  | null : Json
  | arr : List Json → Json
  | obj : List (String × Json) → Json

/-- A row of the `Users` table (`src/db/models/user.js`): id (integer,
auto-increment primary key), firstName, lastName, emailAddress (unique),
password (stored hash). -/
structure User where
  id : Nat
  firstName : String
  lastName : String
  emailAddress : String
  password : String
deriving Repr, DecidableEq

/-- A row of the `Courses` table (`src/db/models/course.js` model part):
id, title, description, optional estimatedTime and materialsNeeded, and
the `userId` foreign key to the owning user (`allowNull: false`). -/
structure Course where
  id : Nat
  title : String
  description : String
  estimatedTime : Option String
  materialsNeeded : Option String
  userId : Nat
deriving Repr, DecidableEq

/-- The persistence collaborator: the two tables reached through
create/find/update/destroy in the handlers. -/
structure Store where
  users : List User
  courses : List Course
deriving Repr, DecidableEq

/-- An HTTP response as the handlers build it: status code, optional JSON
body (`.end()` sends none), optional Location header. -/
structure Response where
  status : Nat
  body : Option Json
  location : Option String

/-- Credentials parsed from the Basic-Authorization header by
`basic-auth`'s `auth(req)`: the name (email address) and the password. -/
structure Credentials where
  name : String
  pass : String
deriving Repr, DecidableEq

/-- Modelled from the spec: the `bcryptjs` library is not part of this
repository's sources. Spec §4.1 contracts a salted one-way scheme whose
comparator returns true iff the presented secret hashes to the stored
hash; we model `bcryptjs.hashSync` as an injective tagging function whose
output is never the plaintext itself. -/
def hashSync (plain : String) : String := "$2a$10$" ++ plain

/-- Modelled from the spec: `bcryptjs.compareSync(secret, storedHash)`
returns true iff `secret` hashes to `storedHash` (spec §4.1). -/
def compareSync (secret stored : String) : Bool := stored == hashSync secret

/-- `users.find(u => u.emailAddress === credentials.name)` in
`authenticateUser` (after `models.User.findAll()`). -/
def findUserByEmail (users : List User) (email : String) : Option User :=
  users.find? (fun u => u.emailAddress == email)

/-- `models.Course.findByPk(req.params.id)`. -/
def findCourseById (courses : List Course) (cid : Nat) : Option Course :=
  courses.find? (fun c => c.id == cid)

/-- Lookup used when serializing the included `owner` of a course. -/
def findUserById (users : List User) (uid : Nat) : Option User :=
  users.find? (fun u => u.id == uid)

/-- Outcome of the authentication middleware: the resolved user attached
to the request, or a rejection carrying the server-side diagnostic
message (logged via `console.warn`, never sent to the caller). -/
inductive AuthResult where
  | authenticated : User → AuthResult
  | rejected : String → AuthResult
deriving Repr, DecidableEq

/-- The `authenticateUser` middleware of `src/db/models/course.js`
(routes file, lines 71-110): parse credentials, look the user up by email
over `findAll`, compare the password against the stored hash; any failure
sets a diagnostic message and yields a rejection. -/
def authenticateUser (users : List User) (creds : Option Credentials) :
    AuthResult :=
  match creds with
  | none => .rejected "Auth header not found"
  | some c =>
    match findUserByEmail users c.name with
    | none => .rejected ("User not found : " ++ c.name)
    | some u =>
      if compareSync c.pass u.password then .authenticated u
      else .rejected ("Authentication failure: " ++ u.emailAddress)

/-- The uniform response sent whenever `authenticateUser` rejects:
`res.status(401).json({ message: "Access Denied" })`. -/
def accessDenied : Response :=
  { status := 401
    body := some (.obj [("message", .str "Access Denied")])
    location := none }

/-- Response rendered by the global error handler of `src/app.js` for an
error carrying no `status` of its own (`err.status || 500` with
`{ error: { message: err.message } }`). -/
def serverError (msg : String) : Response :=
  { status := 500
    body := some (.obj [("error", .obj [("message", .str msg)])])
    location := none }

/-- Request body for POST /users; each field is absent/null (`none`) or a
string, as accessed via `req.body.<field>`. -/
structure UserBody where
  firstName : Option String
  lastName : Option String
  emailAddress : Option String
  password : Option String
deriving Repr, DecidableEq

/-- Request body for the course routes. -/
structure CourseBody where
  title : Option String
  description : Option String
  estimatedTime : Option String
  materialsNeeded : Option String
  userId : Option Nat
deriving Repr, DecidableEq

/-- `check(f).exists({ checkNull: true, checkFalsy: true })`: fails when
the field is missing, null, or the empty (falsy) string. -/
def existsCk : Option String → Bool
  | none => false
  | some s => !(s == "")

/-- express-validator coerces a missing/null value to the empty string
before running format validators such as `isEmail`. -/
def fieldStr : Option String → String
  | none => ""
  | some s => s

/-- The POST /users validation chain (routes file, lines 132-147): the
four `check(...)` chains in declaration order; the `emailAddress` chain
carries two validators (`exists` then `isEmail`), each contributing its
own message on failure. The email-format predicate of the underlying
validator library is abstracted as `isEmail`. -/
def validateUser (isEmail : String → Bool) (b : UserBody) : List String :=
  (if existsCk b.firstName then [] else ["Please provide  \"firstName\""]) ++
  (if existsCk b.lastName then [] else ["Please provide \"lastName\""]) ++
  (if existsCk b.emailAddress then [] else ["Please provide \"emailAddress\""]) ++
  (if isEmail (fieldStr b.emailAddress) then []
    else ["Please provide valid \"email address\" "]) ++
  (if existsCk b.password then [] else ["Please provide \"password\""])

/-- The POST /courses validation chain (lines 225-232): `title` and
`description` presence. -/
def validateCoursePost (b : CourseBody) : List String :=
  (if existsCk b.title then [] else ["Please provide \"title\""]) ++
  (if existsCk b.description then [] else ["Please provide \"description\""])

/-- The PUT /courses/:id validation chain (lines 264-271); note the
source's distinct message text for `description` on this route. -/
def validateCoursePut (b : CourseBody) : List String :=
  (if existsCk b.title then [] else ["Please provide \"title\""]) ++
  (if existsCk b.description then [] else ["Pleas provide \"description\""])

/-- Auto-increment primary key as assigned by the store on insert. -/
def nextId (ids : List Nat) : Nat := ids.foldr max 0 + 1

/-- `models.User.create({...})` with the model declarations of
`src/db/models/user.js`: the model-level `isEmail` validation on
`emailAddress` runs first; then the insert hits the unique constraint on
`emailAddress`, whose declared message is "Email address already in
use!"; otherwise the row is inserted with the next auto-increment id.
A failure leaves the table untouched and surfaces as a thrown error
(modelled as `.error` with the Sequelize error's message). -/
def userCreate (isEmail : String → Bool) (s : Store)
    (firstName lastName emailAddress password : String) :
    Except String (User × Store) :=
  if !(isEmail emailAddress) then
    .error "Validation error: Validation isEmail on emailAddress failed"
  else if s.users.any (fun u => u.emailAddress == emailAddress) then
    .error "Email address already in use!"
  else
    let u : User :=
      { id := nextId (s.users.map User.id)
        firstName, lastName, emailAddress, password }
    .ok (u, { s with users := s.users ++ [u] })

/-- `models.Course.create({...})`: the `userId` foreign key is declared
`allowNull: false` and references `Users`, so a missing or dangling
`userId` makes the insert throw; otherwise the row is inserted with the
next auto-increment id. -/
def courseCreate (s : Store) (title description : String)
    (estimatedTime materialsNeeded : Option String) (userId : Option Nat) :
    Except String (Course × Store) :=
  match userId with
  | none => .error "notNull Violation: Course.userId cannot be null"
  | some uid =>
    if s.users.any (fun u => u.id == uid) then
      let c : Course :=
        { id := nextId (s.courses.map Course.id)
          title, description, estimatedTime, materialsNeeded, userId := uid }
      .ok (c, { s with courses := s.courses ++ [c] })
    else .error "SQLITE_CONSTRAINT: FOREIGN KEY constraint failed"

/-- `models.Course.update({title, description, estimatedTime,
materialsNeeded}, { where: { id } })`: rows matching the id get the four
fields set; a field whose body value is absent is left as it was
(Sequelize skips undefined values). -/
def courseUpdate (s : Store) (cid : Nat) (b : CourseBody) : Store :=
  { s with
    courses := s.courses.map (fun c =>
      if c.id == cid then
        { c with
          title := fieldStr b.title
          description := fieldStr b.description
          estimatedTime :=
            match b.estimatedTime with
            | none => c.estimatedTime
            | some v => some v
          materialsNeeded :=
            match b.materialsNeeded with
            | none => c.materialsNeeded
            | some v => some v }
      else c) }

/-- `models.Course.destroy({ where: { id } })`. -/
def courseDestroy (s : Store) (cid : Nat) : Store :=
  { s with courses := s.courses.filter (fun c => !(c.id == cid)) }

/-- Serialization of an included `owner` user under
`attributes: { exclude: ["createdAt", "updatedAt", "password"] }`. -/
def ownerJson (u : User) : Json :=
  .obj [("id", .num u.id), ("firstName", .str u.firstName),
        ("lastName", .str u.lastName), ("emailAddress", .str u.emailAddress)]

/-- A nullable column serializes to JSON null when absent. -/
def optJson : Option String → Json
  | none => .null
  | some s => .str s

/-- Serialization of a course with its included `owner`, as returned by
`findAll`/`findByPk` with `exclude: ["createdAt", "updatedAt"]` on the
course and the owner include above. -/
def courseJson (users : List User) (c : Course) : Json :=
  .obj [("id", .num c.id), ("title", .str c.title),
        ("description", .str c.description),
        ("estimatedTime", optJson c.estimatedTime),
        ("materialsNeeded", optJson c.materialsNeeded),
        ("userId", .num c.userId),
        ("owner",
          match findUserById users c.userId with
          | some u => ownerJson u
          | none => .null)]

/-- GET /users (routes file, lines 115-127): authenticate, then return
the four public fields of `req.currentUser`. -/
def getUsers (s : Store) (creds : Option Credentials) : Response :=
  match authenticateUser s.users creds with
  | .rejected _ => accessDenied
  | .authenticated u =>
    { status := 200
      body := some (.obj [("id", .num u.id), ("firstName", .str u.firstName),
                          ("lastName", .str u.lastName),
                          ("emailAddress", .str u.emailAddress)])
      location := none }

/-- POST /users (lines 130-174): run the validation chains; on any
recorded error respond 400 with the message list; otherwise hash the
password and create the user. A thrown creation error is forwarded by
`asyncHandler` to the global error handler of `src/app.js` (no `status`
on Sequelize errors, hence 500). On success, `res.location("/")
.status(201).end()`. -/
def postUsers (isEmail : String → Bool) (s : Store) (b : UserBody) :
    Response × Store :=
  let errs := validateUser isEmail b
  if errs.isEmpty then
    match userCreate isEmail s (fieldStr b.firstName) (fieldStr b.lastName)
        (fieldStr b.emailAddress) (hashSync (fieldStr b.password)) with
    | .error m => (serverError m, s)
    | .ok (_, s2) => ({ status := 201, body := none, location := some "/" }, s2)
  else
    ({ status := 400
       body := some (.obj [("errors", .arr (errs.map .str))])
       location := none }, s)

/-- GET /courses (lines 178-198): `findAll` with the owner include; the
`if (courses)` test is on the returned array, which is always truthy, so
the 200 branch is the one taken. -/
def getCourses (s : Store) : Response :=
  { status := 200
    body := some (.arr (s.courses.map (courseJson s.users)))
    location := none }

/-- GET /courses/:id (lines 201-221): `findByPk` with the owner include;
200 with `{ course }` when found, else 404 `{ message: "Course not
exist" }`. -/
def getCourse (s : Store) (cid : Nat) : Response :=
  match findCourseById s.courses cid with
  | some c =>
    { status := 200
      body := some (.obj [("course", courseJson s.users c)])
      location := none }
  | none =>
    { status := 404
      body := some (.obj [("message", .str "Course not exist")])
      location := none }

/-- POST /courses (lines 223-259): the `check` chains only record
errors; `authenticateUser` runs next and short-circuits with 401 on
rejection; the handler then examines `validationResult` (400 on errors)
and otherwise creates the course with `userId: req.body.userId`,
responding `201`, empty body, `Location: /courses/` + id. A thrown
creation error reaches the global handler as 500. -/
def postCourses (s : Store) (creds : Option Credentials) (b : CourseBody) :
    Response × Store :=
  match authenticateUser s.users creds with
  | .rejected _ => (accessDenied, s)
  | .authenticated _ =>
    let errs := validateCoursePost b
    if errs.isEmpty then
      match courseCreate s (fieldStr b.title) (fieldStr b.description)
          b.estimatedTime b.materialsNeeded b.userId with
      | .error m => (serverError m, s)
      | .ok (c, s2) =>
        ({ status := 201, body := none
           location := some ("/courses/" ++ toString c.id) }, s2)
    else
      ({ status := 400
         body := some (.obj [("errors", .arr (errs.map .str))])
         location := none }, s)

/-- PUT /courses/:id (lines 262-300): after authentication and
validation, `findByPk`; the handler dereferences `course.userId` with no
null check, so a missing id throws a TypeError that the global handler
renders as 500; owner mismatch responds `403` with the JSON string
`"User has no course"`; otherwise update and `204`. -/
def putCourse (s : Store) (cid : Nat) (creds : Option Credentials)
    (b : CourseBody) : Response × Store :=
  match authenticateUser s.users creds with
  | .rejected _ => (accessDenied, s)
  | .authenticated u =>
    let errs := validateCoursePut b
    if errs.isEmpty then
      match findCourseById s.courses cid with
      | none =>
        (serverError "Cannot read properties of null (reading 'userId')", s)
      | some c =>
        if c.userId == u.id then
          ({ status := 204, body := none, location := none },
            courseUpdate s cid b)
        else
          ({ status := 403, body := some (.str "User has no course")
             location := none }, s)
    else
      ({ status := 400
         body := some (.obj [("errors", .arr (errs.map .str))])
         location := none }, s)

/-- DELETE /courses/:id (lines 304-321): authentication, `findByPk`,
the same unguarded `course.userId` dereference, owner check, destroy. -/
def deleteCourse (s : Store) (cid : Nat) (creds : Option Credentials) :
    Response × Store :=
  match authenticateUser s.users creds with
  | .rejected _ => (accessDenied, s)
  | .authenticated u =>
    match findCourseById s.courses cid with
    | none =>
      (serverError "Cannot read properties of null (reading 'userId')", s)
    | some c =>
      if c.userId == u.id then
        ({ status := 204, body := none, location := none },
          courseDestroy s cid)
      else
        ({ status := 403, body := some (.str "User has no course")
           location := none }, s)

mutual

/-- Whether a key occurs anywhere in a JSON value (at any object depth). -/
def jsonHasKey : String → Json → Bool
  | k, .obj kvs => objHasKey k kvs
  | k, .arr xs => arrHasKey k xs
  | _, .str _ => false
  | _, .num _ => false
  | _, .bool _ => false
  | _, .null => false

def objHasKey : String → List (String × Json) → Bool
  | _, [] => false
  | k, (k0, v) :: rest => k0 == k || jsonHasKey k v || objHasKey k rest

def arrHasKey : String → List Json → Bool
  | _, [] => false
  | k, x :: xs => jsonHasKey k x || arrHasKey k xs

end

/-- The POST /users validation chains stated as the spec's ordered rule
list: one (predicate, message) rule per declared validator, in
declaration order; used to compare `validateUser` against the amended
one-message-per-failing-rule reading. -/
def userRules (isEmail : String → Bool) : List ((UserBody → Bool) × String) :=
  [(fun b => existsCk b.firstName, "Please provide  \"firstName\""),
   (fun b => existsCk b.lastName, "Please provide \"lastName\""),
   (fun b => existsCk b.emailAddress, "Please provide \"emailAddress\""),
   (fun b => isEmail (fieldStr b.emailAddress),
     "Please provide valid \"email address\" "),
   (fun b => existsCk b.password, "Please provide \"password\"")]

/-- Shapes a failure body can legitimately take in this code base: an
object containing a `message` field at some depth, the 400 validation
object `{ errors: [...] }`, or the bare 403 string. -/
def failureBodyOk (j : Json) : Prop :=
  jsonHasKey "message" j = true
  ∨ (∃ msgs : List String, j = .obj [("errors", .arr (msgs.map .str))])
  ∨ j = .str "User has no course"

/-- A concrete email-format predicate used to instantiate the abstracted
validator in witnesses (nonempty strings pass). -/
def em0 : String → Bool := fun s => !(s == "")

/-- Sample row: the user Ann with id 1. -/
def ann : User :=
  { id := 1, firstName := "Ann", lastName := "Lee"
    emailAddress := "ann@x.com", password := hashSync "secret1" }

/-- Sample row: the user Bob with id 2. -/
def bob : User :=
  { id := 2, firstName := "Bob", lastName := "Ray"
    emailAddress := "bob@x.com", password := hashSync "pw2" }

/-- Sample row: a course owned by Ann. -/
def course1 : Course :=
  { id := 1, title := "Intro", description := "desc"
    estimatedTime := none, materialsNeeded := none, userId := 1 }

/-- Sample store holding Ann, Bob and Ann's course. -/
def store1 : Store := { users := [ann, bob], courses := [course1] }

/-- The empty store. -/
def emptyStore : Store := { users := [], courses := [] }

/-- The store after creating Ann in the empty store. -/
def store1ann : Store := { users := [ann], courses := [] }

/-- POST /users body with every field absent. -/
def emptyBody : UserBody :=
  { firstName := none, lastName := none, emailAddress := none
    password := none }

/-- Valid POST /users body for Ann. -/
def annBody : UserBody :=
  { firstName := some "Ann", lastName := some "Lee"
    emailAddress := some "ann@x.com", password := some "secret1" }

/-- POST /users body reusing Ann's email address. -/
def dupBody : UserBody :=
  { firstName := some "An2", lastName := some "Le2"
    emailAddress := some "ann@x.com", password := some "pw9" }

/-- Valid course body naming user 1 as owner. -/
def cBody : CourseBody :=
  { title := some "Intro", description := some "desc"
    estimatedTime := none, materialsNeeded := none, userId := some 1 }

/-- Valid course body naming user 2 as owner. -/
def cBodyOwn2 : CourseBody :=
  { title := some "T2", description := some "D2"
    estimatedTime := none, materialsNeeded := none, userId := some 2 }

/-- Course body failing both validation rules. -/
def cBodyBad : CourseBody :=
  { title := none, description := none
    estimatedTime := none, materialsNeeded := none, userId := none }

/-- Ann's correct Basic-Auth credentials. -/
def annCreds : Credentials := { name := "ann@x.com", pass := "secret1" }

/-- Bob's correct Basic-Auth credentials. -/
def bobCreds : Credentials := { name := "bob@x.com", pass := "pw2" }

/-- Ann's email with a wrong password. -/
def wrongCreds : Credentials := { name := "ann@x.com", pass := "nope" }

/-- Any of the three rejection reasons makes `authenticateUser` return a
rejection (with some diagnostic message). -/
lemma auth_rejected_of_reason (users : List User) (creds : Option Credentials)
    (h : creds = none
      ∨ (∃ c, creds = some c ∧ findUserByEmail users c.name = none)
      ∨ (∃ c u, creds = some c ∧ findUserByEmail users c.name = some u
          ∧ compareSync c.pass u.password = false)) :
    ∃ m, authenticateUser users creds = .rejected m := by
  rcases h with h | ⟨c, hc, hfind⟩ | ⟨c, u, hc, hfind, hcmp⟩
  · exact ⟨"Auth header not found", by simp [authenticateUser, h]⟩
  · exact ⟨"User not found : " ++ c.name, by simp [authenticateUser, hc, hfind]⟩
  · exact ⟨"Authentication failure: " ++ u.emailAddress,
      by simp [authenticateUser, hc, hfind, hcmp]⟩

/-- Claim C1: on every authenticated route (GET /users, POST /courses,
PUT /courses/:id, DELETE /courses/:id), an authentication rejection for
any of the three reasons — missing Authorization header, no user with
the presented email, or password mismatch — produces exactly the same
response: status 401 with body made of the single fixed message "Access
Denied"; the specific reason never appears in the response. -/
theorem claim1_uniform_access_denied (s : Store) (creds : Option Credentials)
    (cid : Nat) (b : CourseBody)
    (h : creds = none
      ∨ (∃ c, creds = some c ∧ findUserByEmail s.users c.name = none)
      ∨ (∃ c u, creds = some c ∧ findUserByEmail s.users c.name = some u
          ∧ compareSync c.pass u.password = false)) :
    getUsers s creds = accessDenied
    ∧ (postCourses s creds b).1 = accessDenied
    ∧ (putCourse s cid creds b).1 = accessDenied
    ∧ (deleteCourse s cid creds).1 = accessDenied
    ∧ accessDenied.status = 401
    ∧ accessDenied.body = some (.obj [("message", .str "Access Denied")]) := by
  obtain ⟨m, hm⟩ := auth_rejected_of_reason s.users creds h
  refine ⟨?_, ?_, ?_, ?_, rfl, rfl⟩ <;>
    simp [getUsers, postCourses, putCourse, deleteCourse, hm]

/-- Claim C1 witness at a concrete rejected request (no header). -/
theorem claim1_witness :
    ((none : Option Credentials) = none
      ∨ (∃ c, (none : Option Credentials) = some c
          ∧ findUserByEmail store1.users c.name = none)
      ∨ (∃ c u, (none : Option Credentials) = some c
          ∧ findUserByEmail store1.users c.name = some u
          ∧ compareSync c.pass u.password = false))
    ∧ (getUsers store1 none = accessDenied
        ∧ (postCourses store1 none cBody).1 = accessDenied
        ∧ (putCourse store1 1 none cBody).1 = accessDenied
        ∧ (deleteCourse store1 1 none).1 = accessDenied
        ∧ accessDenied.status = 401
        ∧ accessDenied.body = some (.obj [("message", .str "Access Denied")])) :=
  ⟨Or.inl rfl, claim1_uniform_access_denied store1 none 1 cBody (Or.inl rfl)⟩

/-- Claim C2: a PUT or DELETE on an existing course by an authenticated
caller who is not its owner (with, for PUT, a body passing validation)
responds 403 and leaves the store — in particular the course row —
entirely unchanged. -/
theorem claim2_foreign_course_403_unmodified (s : Store) (cid : Nat)
    (creds : Option Credentials) (b : CourseBody) (u : User) (c : Course)
    (hauth : authenticateUser s.users creds = .authenticated u)
    (hc : findCourseById s.courses cid = some c)
    (hown : c.userId ≠ u.id)
    (hval : validateCoursePut b = []) :
    (putCourse s cid creds b).1.status = 403
    ∧ (putCourse s cid creds b).2 = s
    ∧ (deleteCourse s cid creds).1.status = 403
    ∧ (deleteCourse s cid creds).2 = s := by
  have hbeq : (c.userId == u.id) = false := by
    simpa using hown
  refine ⟨?_, ?_, ?_, ?_⟩ <;>
    simp [putCourse, deleteCourse, hauth, hc, hval, hbeq]

/-- The modelled hash is never the plaintext itself (the tag lengthens
the string). -/
lemma hashSync_ne_plain (p : String) : hashSync p ≠ p := by
  intro h
  have hlen := congrArg String.length h
  rw [hashSync, String.length_append] at hlen
  have h7 : ("$2a$10$" : String).length = 7 := by decide
  rw [h7] at hlen
  omega

/-- The modelled hash is injective, so comparing any other secret
against a stored hash fails. -/
lemma hashSync_injective {p q : String} (h : hashSync p = hashSync q) :
    p = q := by
  rw [hashSync, hashSync] at h
  have hdata := congrArg String.data h
  rw [String.data_append, String.data_append] at hdata
  exact String.ext (List.append_cancel_left hdata)

/-- Claim C3: a user created via POST /users is stored with the hash of
the submitted plaintext, never the plaintext itself; the credential
comparator accepts the original plaintext against the stored value and
rejects every other string. -/
theorem claim3_password_stored_hashed (isEmail : String → Bool) (s : Store)
    (b : UserBody) (u : User) (s2 : Store)
    (hval : validateUser isEmail b = [])
    (hcr : userCreate isEmail s (fieldStr b.firstName) (fieldStr b.lastName)
        (fieldStr b.emailAddress) (hashSync (fieldStr b.password))
        = .ok (u, s2)) :
    (postUsers isEmail s b).1
        = { status := 201, body := none, location := some "/" }
    ∧ (postUsers isEmail s b).2 = s2
    ∧ s2.users = s.users ++ [u]
    ∧ u.password ≠ fieldStr b.password
    ∧ compareSync (fieldStr b.password) u.password = true
    ∧ (∀ q, q ≠ fieldStr b.password → compareSync q u.password = false) := by
  have hpw : u.password = hashSync (fieldStr b.password) ∧
      s2.users = s.users ++ [u] := by
    rw [userCreate] at hcr
    split at hcr
    · cases hcr
    · split at hcr
      · cases hcr
      · rw [Except.ok.injEq, Prod.mk.injEq] at hcr
        obtain ⟨hu, hs2⟩ := hcr
        subst hu hs2
        exact ⟨rfl, rfl⟩
  obtain ⟨hpw, husers⟩ := hpw
  refine ⟨?_, ?_, husers, ?_, ?_, ?_⟩
  · simp [postUsers, hval, hcr]
  · simp [postUsers, hval, hcr]
  · rw [hpw]; exact hashSync_ne_plain _
  · simp [compareSync, hpw]
  · intro q hq
    rw [compareSync, hpw, beq_eq_false_iff_ne]
    exact fun h => hq (hashSync_injective h.symm)

/-- Claim C3 witness: creating Ann in the empty store. -/
theorem claim3_witness :
    (validateUser em0 annBody = []
      ∧ userCreate em0 emptyStore (fieldStr annBody.firstName)
          (fieldStr annBody.lastName) (fieldStr annBody.emailAddress)
          (hashSync (fieldStr annBody.password)) = .ok (ann, store1ann))
    ∧ ((postUsers em0 emptyStore annBody).1
          = { status := 201, body := none, location := some "/" }
        ∧ (postUsers em0 emptyStore annBody).2 = store1ann
        ∧ store1ann.users = emptyStore.users ++ [ann]
        ∧ ann.password ≠ fieldStr annBody.password
        ∧ compareSync (fieldStr annBody.password) ann.password = true
        ∧ (∀ q, q ≠ fieldStr annBody.password →
            compareSync q ann.password = false)) :=
  ⟨⟨by decide, by rfl⟩,
    claim3_password_stored_hashed em0 emptyStore annBody ann store1ann
      (by decide) (by rfl)⟩

/-- The POST /users validation chain passes exactly when all five
declared validators pass. -/
lemma validateUser_nil_iff (isEmail : String → Bool) (b : UserBody) :
    validateUser isEmail b = [] ↔
      existsCk b.firstName = true ∧ existsCk b.lastName = true
      ∧ existsCk b.emailAddress = true
      ∧ isEmail (fieldStr b.emailAddress) = true
      ∧ existsCk b.password = true := by
  cases h1 : existsCk b.firstName <;> cases h2 : existsCk b.lastName <;>
    cases h3 : existsCk b.emailAddress <;>
    cases h4 : isEmail (fieldStr b.emailAddress) <;>
    cases h5 : existsCk b.password <;>
    simp [validateUser, h1, h2, h3, h4, h5]

/-- Claim C4 counterexample: POSTing a second user with Ann's email to
the concrete store produces a 500 server-error response (the Sequelize
unique-constraint error reaches the global handler of `src/app.js`
unhandled, with the model's message "Email address already in use!"),
not a validation-style error; so the claim's "surfaced ... as a
validation-style error ... rather than an unhandled 500 server error"
fails, though no duplicate row is created. -/
theorem claim4_counterexample :
    (postUsers em0 store1 dupBody).1
        = serverError "Email address already in use!"
    ∧ (postUsers em0 store1 dupBody).1.status = 500
    ∧ (postUsers em0 store1 dupBody).1.status ≠ 400
    ∧ (postUsers em0 store1 dupBody).2 = store1 :=
  ⟨rfl, rfl, by decide, rfl⟩

/-- Claim C4 as amended: a validated POST /users whose email equals an
already-stored user's email fails — no duplicate row is created and the
store (hence the original row) is unchanged — but the failure surfaces
through the global error handler as status 500 with body
`{ error: { message: "Email address already in use!" } }`, not as a 400
validation-style response. -/
theorem claim4_duplicate_email_500 (isEmail : String → Bool) (s : Store)
    (b : UserBody)
    (hval : validateUser isEmail b = [])
    (hdup : s.users.any
        (fun u => u.emailAddress == fieldStr b.emailAddress) = true) :
    (postUsers isEmail s b).1 = serverError "Email address already in use!"
    ∧ (postUsers isEmail s b).1.status = 500
    ∧ (postUsers isEmail s b).2 = s := by
  have h4 := ((validateUser_nil_iff isEmail b).mp hval).2.2.2.1
  refine ⟨?_, ?_, ?_⟩ <;>
    simp [postUsers, hval, userCreate, h4, hdup, serverError]

/-- Claim C4 witness: the amended statement at the concrete duplicate. -/
theorem claim4_witness :
    (validateUser em0 dupBody = []
      ∧ store1.users.any
          (fun u => u.emailAddress == fieldStr dupBody.emailAddress) = true)
    ∧ ((postUsers em0 store1 dupBody).1
          = serverError "Email address already in use!"
        ∧ (postUsers em0 store1 dupBody).1.status = 500
        ∧ (postUsers em0 store1 dupBody).2 = store1) :=
  ⟨⟨by decide, by decide⟩,
    claim4_duplicate_email_500 em0 store1 dupBody (by decide) (by decide)⟩

/-- Claim C5 counterexample: the empty POST /users body has four
missing fields but the 400 response lists five messages — the
`emailAddress` field contributes both its presence message and its
email-format message — so "exactly one message per missing/invalid
field" fails. -/
theorem claim5_counterexample :
    (postUsers em0 emptyStore emptyBody).1.status = 400
    ∧ (postUsers em0 emptyStore emptyBody).1.body
        = some (.obj [("errors", .arr
            [.str "Please provide  \"firstName\"",
             .str "Please provide \"lastName\"",
             .str "Please provide \"emailAddress\"",
             .str "Please provide valid \"email address\" ",
             .str "Please provide \"password\""])])
    ∧ (validateUser em0 emptyBody).length = 5
    ∧ (validateUser em0 emptyBody).length ≠ 4 :=
  ⟨rfl, rfl, rfl, by decide⟩

/-- Claim C5 as amended: the response is 400 exactly when at least one
validation rule fails, and the error list contains exactly one message
per failing validator in rule-declaration order (firstName-presence,
lastName-presence, emailAddress-presence, emailAddress-format,
password-presence) — so a missing or empty emailAddress contributes two
messages, one per failing validator, rather than one per field. -/
theorem claim5_one_message_per_rule (isEmail : String → Bool) (s : Store)
    (b : UserBody) :
    validateUser isEmail b
        = (userRules isEmail).filterMap
            (fun r => if r.1 b then none else some r.2)
    ∧ ((postUsers isEmail s b).1.status = 400 ↔ validateUser isEmail b ≠ [])
    ∧ (validateUser isEmail b ≠ [] →
        (postUsers isEmail s b).1.body
          = some (.obj [("errors", .arr ((validateUser isEmail b).map .str))])
        ∧ (postUsers isEmail s b).2 = s) := by
  refine ⟨?_, ⟨?_, ?_⟩, ?_⟩
  · cases h1 : existsCk b.firstName <;> cases h2 : existsCk b.lastName <;>
      cases h3 : existsCk b.emailAddress <;>
      cases h4 : isEmail (fieldStr b.emailAddress) <;>
      cases h5 : existsCk b.password <;>
      simp [validateUser, userRules, h1, h2, h3, h4, h5]
  · intro h400
    intro hnil
    rcases hc : userCreate isEmail s (fieldStr b.firstName)
        (fieldStr b.lastName) (fieldStr b.emailAddress)
        (hashSync (fieldStr b.password)) with m | pr <;>
      simp [postUsers, hnil, hc, serverError] at h400
  · intro hne
    rcases hl : validateUser isEmail b with _ | ⟨x, xs⟩
    · exact absurd hl hne
    · simp [postUsers, hl]
  · intro hne
    rcases hl : validateUser isEmail b with _ | ⟨x, xs⟩
    · exact absurd hl hne
    · constructor <;> simp [postUsers, hl]

/-- Claim C5 witness: the amended statement at the empty body. -/
theorem claim5_witness :
    validateUser em0 emptyBody
        = (userRules em0).filterMap
            (fun r => if r.1 emptyBody then none else some r.2)
    ∧ ((postUsers em0 emptyStore emptyBody).1.status = 400
        ↔ validateUser em0 emptyBody ≠ [])
    ∧ (validateUser em0 emptyBody ≠ [] →
        (postUsers em0 emptyStore emptyBody).1.body
          = some (.obj [("errors",
              .arr ((validateUser em0 emptyBody).map .str))])
        ∧ (postUsers em0 emptyStore emptyBody).2 = emptyStore) :=
  claim5_one_message_per_rule em0 emptyStore emptyBody

@[simp] lemma jsonHasKey_obj (k : String) (kvs : List (String × Json)) :
    jsonHasKey k (.obj kvs) = objHasKey k kvs := by
  rw [jsonHasKey]

@[simp] lemma jsonHasKey_arr (k : String) (xs : List Json) :
    jsonHasKey k (.arr xs) = arrHasKey k xs := by
  rw [jsonHasKey]

@[simp] lemma jsonHasKey_str (k v : String) :
    jsonHasKey k (.str v) = false := by
  rw [jsonHasKey]

@[simp] lemma jsonHasKey_num (k : String) (n : Int) :
    jsonHasKey k (.num n) = false := by
  rw [jsonHasKey]

@[simp] lemma jsonHasKey_null (k : String) :
    jsonHasKey k .null = false := by
  rw [jsonHasKey]

@[simp] lemma objHasKey_nil (k : String) : objHasKey k [] = false := by
  rw [objHasKey]

@[simp] lemma objHasKey_cons (k k0 : String) (v : Json)
    (rest : List (String × Json)) :
    objHasKey k ((k0, v) :: rest)
      = (k0 == k || jsonHasKey k v || objHasKey k rest) := by
  rw [objHasKey]

@[simp] lemma arrHasKey_nil (k : String) : arrHasKey k [] = false := by
  rw [arrHasKey]

@[simp] lemma arrHasKey_cons (k : String) (x : Json) (xs : List Json) :
    arrHasKey k (x :: xs) = (jsonHasKey k x || arrHasKey k xs) := by
  rw [arrHasKey]

/-- A serialized nullable column never contains any object key. -/
@[simp] lemma jsonHasKey_optJson (k : String) (o : Option String) :
    jsonHasKey k (optJson o) = false := by
  cases o <;> simp [optJson]

/-- The serialized owner object carries no password field. -/
@[simp] lemma ownerJson_no_password (u : User) :
    jsonHasKey "password" (ownerJson u) = false := by
  simp [ownerJson]

/-- A serialized course (with its included owner) carries no password
field anywhere. -/
lemma courseJson_no_password (users : List User) (c : Course) :
    jsonHasKey "password" (courseJson users c) = false := by
  rcases h : findUserById users c.userId with _ | u <;>
    simp [courseJson, h]

/-- An array of values each free of a key is free of that key. -/
lemma arrHasKey_false_of (k : String) (xs : List Json)
    (h : ∀ x ∈ xs, jsonHasKey k x = false) : arrHasKey k xs = false := by
  induction xs with
  | nil => simp
  | cons x xs ih =>
    simp [h x (by simp), ih (fun y hy => h y (by simp [hy]))]

/-- Claim C6: no payload ever contains a password field — GET /users
returns exactly the four public fields of the authenticated user, and
the bodies of GET /courses and GET /courses/:id contain no `password`
key at any depth (the owner includes exclude it). -/
theorem claim6_no_password_in_payload (s : Store) (creds : Option Credentials)
    (cid : Nat) (u : User)
    (hauth : authenticateUser s.users creds = .authenticated u) :
    getUsers s creds
      = { status := 200
          body := some (.obj [("id", .num u.id),
                              ("firstName", .str u.firstName),
                              ("lastName", .str u.lastName),
                              ("emailAddress", .str u.emailAddress)])
          location := none }
    ∧ (∀ j, (getUsers s creds).body = some j →
        jsonHasKey "password" j = false)
    ∧ (∀ j, (getCourses s).body = some j →
        jsonHasKey "password" j = false)
    ∧ (∀ j, (getCourse s cid).body = some j →
        jsonHasKey "password" j = false) := by
  refine ⟨by simp [getUsers, hauth], ?_, ?_, ?_⟩
  · intro j hj
    simp [getUsers, hauth] at hj
    subst hj
    simp
  · intro j hj
    simp [getCourses] at hj
    subst hj
    rw [jsonHasKey_arr]
    apply arrHasKey_false_of
    intro x hx
    obtain ⟨c, _, hc⟩ := List.mem_map.mp hx
    rw [← hc]
    exact courseJson_no_password s.users c
  · intro j hj
    rcases hfind : findCourseById s.courses cid with _ | c <;>
      simp [getCourse, hfind] at hj <;> subst hj
    · simp
    · simp [courseJson_no_password]

/-- Claim C6 witness at the concrete store and Ann's credentials. -/
theorem claim6_witness :
    authenticateUser store1.users (some annCreds) = .authenticated ann
    ∧ (getUsers store1 (some annCreds)
        = { status := 200
            body := some (.obj [("id", .num ann.id),
                                ("firstName", .str ann.firstName),
                                ("lastName", .str ann.lastName),
                                ("emailAddress", .str ann.emailAddress)])
            location := none }
      ∧ (∀ j, (getUsers store1 (some annCreds)).body = some j →
          jsonHasKey "password" j = false)
      ∧ (∀ j, (getCourses store1).body = some j →
          jsonHasKey "password" j = false)
      ∧ (∀ j, (getCourse store1 1).body = some j →
          jsonHasKey "password" j = false)) :=
  ⟨by decide,
    claim6_no_password_in_payload store1 (some annCreds) 1 ann (by decide)⟩

/-- Claim C7: an authenticated PUT (with passing validation) or DELETE
on a course id that matches no stored course dereferences the owner id
of the absent course: the handlers raise an error rendered by the
global handler as a 500 server error — never a 404 and never the
403/204 branches — and the store is untouched. -/
theorem claim7_missing_course_server_error (s : Store) (cid : Nat)
    (creds : Option Credentials) (b : CourseBody) (u : User)
    (hauth : authenticateUser s.users creds = .authenticated u)
    (hval : validateCoursePut b = [])
    (hmiss : findCourseById s.courses cid = none) :
    (putCourse s cid creds b).1
        = serverError "Cannot read properties of null (reading 'userId')"
    ∧ (putCourse s cid creds b).1.status = 500
    ∧ (putCourse s cid creds b).1.status ≠ 404
    ∧ (putCourse s cid creds b).2 = s
    ∧ (deleteCourse s cid creds).1
        = serverError "Cannot read properties of null (reading 'userId')"
    ∧ (deleteCourse s cid creds).1.status = 500
    ∧ (deleteCourse s cid creds).1.status ≠ 404
    ∧ (deleteCourse s cid creds).2 = s := by
  refine ⟨?_, ?_, ?_, ?_, ?_, ?_, ?_, ?_⟩ <;>
    simp [putCourse, deleteCourse, hauth, hval, hmiss, serverError]

/-- Claim C7 witness: Ann PUTs and DELETEs the absent course 99. -/
theorem claim7_witness :
    (authenticateUser store1.users (some annCreds) = .authenticated ann
      ∧ validateCoursePut cBody = []
      ∧ findCourseById store1.courses 99 = none)
    ∧ ((putCourse store1 99 (some annCreds) cBody).1
          = serverError "Cannot read properties of null (reading 'userId')"
        ∧ (putCourse store1 99 (some annCreds) cBody).1.status = 500
        ∧ (putCourse store1 99 (some annCreds) cBody).1.status ≠ 404
        ∧ (putCourse store1 99 (some annCreds) cBody).2 = store1
        ∧ (deleteCourse store1 99 (some annCreds)).1
            = serverError "Cannot read properties of null (reading 'userId')"
        ∧ (deleteCourse store1 99 (some annCreds)).1.status = 500
        ∧ (deleteCourse store1 99 (some annCreds)).1.status ≠ 404
        ∧ (deleteCourse store1 99 (some annCreds)).2 = store1) :=
  ⟨⟨by decide, by decide, by decide⟩,
    claim7_missing_course_server_error store1 99 (some annCreds) cBody ann
      (by decide) (by decide) (by decide)⟩

/-- Claim C8: a POST /courses passing authentication and validation
creates a course whose `userId` comes from the request payload (not the
authenticated caller), and responds 201 with no body and a Location
header `/courses/` followed by the new course's id. -/
theorem claim8_created_course_owner_from_payload (s : Store)
    (creds : Option Credentials) (b : CourseBody) (u : User) (uid : Nat)
    (hauth : authenticateUser s.users creds = .authenticated u)
    (hval : validateCoursePost b = [])
    (huid : b.userId = some uid)
    (hfk : s.users.any (fun v => v.id == uid) = true) :
    ∃ c : Course,
      (postCourses s creds b).1
          = { status := 201, body := none
              location := some ("/courses/" ++ toString c.id) }
      ∧ (postCourses s creds b).2
          = { s with courses := s.courses ++ [c] }
      ∧ c.userId = uid
      ∧ c.title = fieldStr b.title
      ∧ c.description = fieldStr b.description := by
  refine ⟨{ id := nextId (s.courses.map Course.id)
            title := fieldStr b.title
            description := fieldStr b.description
            estimatedTime := b.estimatedTime
            materialsNeeded := b.materialsNeeded
            userId := uid }, ?_, ?_, rfl, rfl, rfl⟩ <;>
    simp [postCourses, hauth, hval, courseCreate, huid, hfk]

/-- Claim C8 witness: Ann creates a course whose payload names Bob
(id 2, not Ann's id 1) as owner. -/
theorem claim8_witness :
    (authenticateUser store1.users (some annCreds) = .authenticated ann
      ∧ validateCoursePost cBodyOwn2 = []
      ∧ cBodyOwn2.userId = some 2
      ∧ store1.users.any (fun v => v.id == 2) = true
      ∧ (2 : Nat) ≠ ann.id)
    ∧ (∃ c : Course,
        (postCourses store1 (some annCreds) cBodyOwn2).1
            = { status := 201, body := none
                location := some ("/courses/" ++ toString c.id) }
        ∧ (postCourses store1 (some annCreds) cBodyOwn2).2
            = { store1 with courses := store1.courses ++ [c] }
        ∧ c.userId = 2
        ∧ c.title = fieldStr cBodyOwn2.title
        ∧ c.description = fieldStr cBodyOwn2.description) :=
  ⟨⟨by decide, by decide, by decide, by decide, by decide⟩,
    claim8_created_course_owner_from_payload store1 (some annCreds) cBodyOwn2
      ann 2 (by decide) (by decide) (by decide) (by decide)⟩

/-- Claim C10: for POST /courses and PUT /courses/:id, authentication is
decided before the validation result is examined: a request failing both
gets the 401 Access Denied response, never 400; and a 400 validation
response implies the caller authenticated successfully. -/
theorem claim10_auth_decided_before_validation (s : Store)
    (creds : Option Credentials) (b : CourseBody) (cid : Nat)
    (hrej : ∃ m, authenticateUser s.users creds = .rejected m)
    (_hbad : validateCoursePost b ≠ [] ∧ validateCoursePut b ≠ []) :
    (postCourses s creds b).1 = accessDenied
    ∧ (putCourse s cid creds b).1 = accessDenied
    ∧ (postCourses s creds b).1.status ≠ 400
    ∧ (putCourse s cid creds b).1.status ≠ 400
    ∧ (∀ cr2, (postCourses s cr2 b).1.status = 400 →
        ∃ u, authenticateUser s.users cr2 = .authenticated u)
    ∧ (∀ cr2, (putCourse s cid cr2 b).1.status = 400 →
        ∃ u, authenticateUser s.users cr2 = .authenticated u) := by
  obtain ⟨m, hm⟩ := hrej
  refine ⟨?_, ?_, ?_, ?_, ?_, ?_⟩
  · simp [postCourses, hm]
  · simp [putCourse, hm]
  · simp [postCourses, hm, accessDenied]
  · simp [putCourse, hm, accessDenied]
  · intro cr2 h400
    rcases hA2 : authenticateUser s.users cr2 with u2 | m2
    · exact ⟨u2, rfl⟩
    · rw [postCourses] at h400
      simp [hA2, accessDenied] at h400
  · intro cr2 h400
    rcases hA2 : authenticateUser s.users cr2 with u2 | m2
    · exact ⟨u2, rfl⟩
    · rw [putCourse] at h400
      simp [hA2, accessDenied] at h400

/-- Claim C10 witness: a headerless request with an invalid body. -/
theorem claim10_witness :
    ((∃ m, authenticateUser store1.users none = .rejected m)
      ∧ validateCoursePost cBodyBad ≠ [] ∧ validateCoursePut cBodyBad ≠ [])
    ∧ ((postCourses store1 none cBodyBad).1 = accessDenied
        ∧ (putCourse store1 1 none cBodyBad).1 = accessDenied
        ∧ (postCourses store1 none cBodyBad).1.status ≠ 400
        ∧ (putCourse store1 1 none cBodyBad).1.status ≠ 400
        ∧ (∀ cr2, (postCourses store1 cr2 cBodyBad).1.status = 400 →
            ∃ u, authenticateUser store1.users cr2 = .authenticated u)
        ∧ (∀ cr2, (putCourse store1 1 cr2 cBodyBad).1.status = 400 →
            ∃ u, authenticateUser store1.users cr2 = .authenticated u)) :=
  ⟨⟨⟨"Auth header not found", by decide⟩, by decide, by decide⟩,
    claim10_auth_decided_before_validation store1 none cBodyBad 1
      ⟨"Auth header not found", by decide⟩ ⟨by decide, by decide⟩⟩

lemma failureBodyOk_message (m : String) :
    failureBodyOk (.obj [("message", .str m)]) := by
  left; simp

lemma failureBodyOk_error_wrapper (m : String) :
    failureBodyOk (.obj [("error", .obj [("message", .str m)])]) := by
  left; simp

lemma failureBodyOk_errors (msgs : List String) :
    failureBodyOk (.obj [("errors", .arr (msgs.map .str))]) :=
  Or.inr (Or.inl ⟨msgs, rfl⟩)

lemma failureBodyOk_no_course : failureBodyOk (.str "User has no course") :=
  Or.inr (Or.inr rfl)

/-- Claim C9 counterexample: a 403 ownership-mismatch response has the
bare JSON string "User has no course" as its body — valid JSON, but it
contains no `message` field — so "every failure response ... is valid
JSON containing a `message` field" fails (the 400 validation body
`{ errors: [...] }` also carries none). -/
theorem claim9_counterexample :
    (putCourse store1 1 (some bobCreds) cBody).1.status = 403
    ∧ (putCourse store1 1 (some bobCreds) cBody).1.body
        = some (.str "User has no course")
    ∧ jsonHasKey "message" (.str "User has no course") = false
    ∧ (postUsers em0 emptyStore emptyBody).1.status = 400
    ∧ jsonHasKey "message"
        (.obj [("errors", .arr
            [.str "Please provide  \"firstName\"",
             .str "Please provide \"lastName\"",
             .str "Please provide \"emailAddress\"",
             .str "Please provide valid \"email address\" ",
             .str "Please provide \"password\""])])
        = false :=
  ⟨rfl, rfl, by simp, rfl, by simp⟩

/-- Claim C9 as amended: every failure response (status 400 and above)
of every route carries a JSON body, but the shape varies: the 401/404
bodies and the global-handler 500 bodies contain a `message` field (for
the latter nested under `error`), while 400 validation bodies are
`{ errors: [...] }` and the 403 ownership-mismatch body is the bare
JSON string "User has no course" — those two carry no `message`
field. -/
theorem claim9_failure_bodies_json (isEmail : String → Bool) (s : Store)
    (creds : Option Credentials) (ub : UserBody) (b : CourseBody)
    (cid : Nat) :
    (400 ≤ (getUsers s creds).status →
      ∃ j, (getUsers s creds).body = some j ∧ failureBodyOk j)
    ∧ (400 ≤ (postUsers isEmail s ub).1.status →
      ∃ j, (postUsers isEmail s ub).1.body = some j ∧ failureBodyOk j)
    ∧ (400 ≤ (getCourses s).status →
      ∃ j, (getCourses s).body = some j ∧ failureBodyOk j)
    ∧ (400 ≤ (getCourse s cid).status →
      ∃ j, (getCourse s cid).body = some j ∧ failureBodyOk j)
    ∧ (400 ≤ (postCourses s creds b).1.status →
      ∃ j, (postCourses s creds b).1.body = some j ∧ failureBodyOk j)
    ∧ (400 ≤ (putCourse s cid creds b).1.status →
      ∃ j, (putCourse s cid creds b).1.body = some j ∧ failureBodyOk j)
    ∧ (400 ≤ (deleteCourse s cid creds).1.status →
      ∃ j, (deleteCourse s cid creds).1.body = some j ∧ failureBodyOk j) := by
  refine ⟨?_, ?_, ?_, ?_, ?_, ?_, ?_⟩
  · rcases hA : authenticateUser s.users creds with u | m
    · intro h; simp [getUsers, hA] at h
    · intro _
      exact ⟨_, by simp [getUsers, hA, accessDenied],
        failureBodyOk_message "Access Denied"⟩
  · rcases hval : validateUser isEmail ub with _ | ⟨x, xs⟩
    · rcases hc : userCreate isEmail s (fieldStr ub.firstName)
          (fieldStr ub.lastName) (fieldStr ub.emailAddress)
          (hashSync (fieldStr ub.password)) with m | pr
      · intro _
        exact ⟨_, by simp [postUsers, hval, hc, serverError],
          failureBodyOk_error_wrapper m⟩
      · intro h; simp [postUsers, hval, hc] at h
    · intro _
      exact ⟨_, by simp [postUsers, hval],
        failureBodyOk_errors (x :: xs)⟩
  · intro h; simp [getCourses] at h
  · rcases hf : findCourseById s.courses cid with _ | c
    · intro _
      exact ⟨_, by simp [getCourse, hf],
        failureBodyOk_message "Course not exist"⟩
    · intro h; simp [getCourse, hf] at h
  · rcases hA : authenticateUser s.users creds with u | m
    · rcases hval : validateCoursePost b with _ | ⟨x, xs⟩
      · rcases hc : courseCreate s (fieldStr b.title)
            (fieldStr b.description) b.estimatedTime b.materialsNeeded
            b.userId with m | pr
        · intro _
          exact ⟨_, by simp [postCourses, hA, hval, hc, serverError],
            failureBodyOk_error_wrapper m⟩
        · intro h; simp [postCourses, hA, hval, hc] at h
      · intro _
        exact ⟨_, by simp [postCourses, hA, hval],
          failureBodyOk_errors (x :: xs)⟩
    · intro _
      exact ⟨_, by simp [postCourses, hA, accessDenied],
        failureBodyOk_message "Access Denied"⟩
  · rcases hA : authenticateUser s.users creds with u | m
    · rcases hval : validateCoursePut b with _ | ⟨x, xs⟩
      · rcases hf : findCourseById s.courses cid with _ | c
        · intro _
          exact ⟨.obj [("error", .obj [("message",
              .str "Cannot read properties of null (reading 'userId')")])],
            by simp [putCourse, hA, hval, hf, serverError],
            failureBodyOk_error_wrapper _⟩
        · rcases hO : c.userId == u.id with _ | _
          · intro _
            exact ⟨_, by simp [putCourse, hA, hval, hf, hO],
              failureBodyOk_no_course⟩
          · intro h; simp [putCourse, hA, hval, hf, hO] at h
      · intro _
        exact ⟨_, by simp [putCourse, hA, hval],
          failureBodyOk_errors (x :: xs)⟩
    · intro _
      exact ⟨_, by simp [putCourse, hA, accessDenied],
        failureBodyOk_message "Access Denied"⟩
  · rcases hA : authenticateUser s.users creds with u | m
    · rcases hf : findCourseById s.courses cid with _ | c
      · intro _
        exact ⟨.obj [("error", .obj [("message",
            .str "Cannot read properties of null (reading 'userId')")])],
          by simp [deleteCourse, hA, hf, serverError],
          failureBodyOk_error_wrapper _⟩
      · rcases hO : c.userId == u.id with _ | _
        · intro _
          exact ⟨_, by simp [deleteCourse, hA, hf, hO],
            failureBodyOk_no_course⟩
        · intro h; simp [deleteCourse, hA, hf, hO] at h
    · intro _
      exact ⟨_, by simp [deleteCourse, hA, accessDenied],
        failureBodyOk_message "Access Denied"⟩

/-- Claim C9 witness at concrete inputs. -/
theorem claim9_witness :
    (400 ≤ (getUsers store1 none).status →
      ∃ j, (getUsers store1 none).body = some j ∧ failureBodyOk j)
    ∧ (400 ≤ (postUsers em0 store1 emptyBody).1.status →
      ∃ j, (postUsers em0 store1 emptyBody).1.body = some j
        ∧ failureBodyOk j)
    ∧ (400 ≤ (getCourses store1).status →
      ∃ j, (getCourses store1).body = some j ∧ failureBodyOk j)
    ∧ (400 ≤ (getCourse store1 1).status →
      ∃ j, (getCourse store1 1).body = some j ∧ failureBodyOk j)
    ∧ (400 ≤ (postCourses store1 none cBody).1.status →
      ∃ j, (postCourses store1 none cBody).1.body = some j
        ∧ failureBodyOk j)
    ∧ (400 ≤ (putCourse store1 1 none cBody).1.status →
      ∃ j, (putCourse store1 1 none cBody).1.body = some j
        ∧ failureBodyOk j)
    ∧ (400 ≤ (deleteCourse store1 1 none).1.status →
      ∃ j, (deleteCourse store1 1 none).1.body = some j
        ∧ failureBodyOk j) :=
  claim9_failure_bodies_json em0 store1 none emptyBody cBody 1

/-- Claim C2 witness: Bob attempts PUT and DELETE on Ann's course. -/
theorem claim2_witness :
    (authenticateUser store1.users (some bobCreds) = .authenticated bob
      ∧ findCourseById store1.courses 1 = some course1
      ∧ course1.userId ≠ bob.id
      ∧ validateCoursePut cBody = [])
    ∧ ((putCourse store1 1 (some bobCreds) cBody).1.status = 403
        ∧ (putCourse store1 1 (some bobCreds) cBody).2 = store1
        ∧ (deleteCourse store1 1 (some bobCreds)).1.status = 403
        ∧ (deleteCourse store1 1 (some bobCreds)).2 = store1) :=
  ⟨⟨by decide, by decide, by decide, by decide⟩,
    claim2_foreign_course_403_unmodified store1 1 (some bobCreds) cBody bob
      course1 (by decide) (by decide) (by decide) (by decide)⟩
